import Mathlib

/-!
Shallow embedding of the hello-gl program (src/main.rs): RAII-style wrappers
around raw OpenGL handles (VertexArray, Buffer, Shader, Program), the linear
startup sequence of main, and the glutin event loop.  The OpenGL driver and
the windowing system are modelled as an oracle (structure Driver) answering
every query the program makes; each program fragment is embedded as a function
of that oracle which returns the sequence of driver calls it issues together
with its result.  A panic (failed unwrap of a non-Result conversion such as
try_into, or Vec::set_len beyond capacity) is modelled as Option.none; an
unwrap of an Err value in main is modelled as an aborted run carrying the
diagnostic string.
-/

set_option maxRecDepth 40000

namespace HelloGL

/-! ## GLenum constants (values from the generated gl bindings) -/

def ARRAY_BUFFER : Nat := 0x8892

def STATIC_DRAW : Nat := 0x88E4

def VERTEX_SHADER : Nat := 0x8B31

def FRAGMENT_SHADER : Nat := 0x8B30

def COMPILE_STATUS : Nat := 0x8B81

def LINK_STATUS : Nat := 0x8B82

def COLOR_BUFFER_BIT : Nat := 0x4000

def TRIANGLES : Nat := 0x0004

def GL_FLOAT : Nat := 0x1406

/-! ## Driver calls

One constructor per call the program issues to the OpenGL driver or to the
windowed context.  Creation calls record the handle the driver returned.
Floating-point literals passed to ClearColor are embedded as rationals. -/

inductive GLCall where
  | getString
  | genVertexArrays (id : Nat)
  | bindVertexArray (id : Nat)
  | genBuffers (id : Nat)
  | bindBuffer (target : Nat) (id : Nat)
  | bufferData (target : Nat) (byteLen : Nat) (usage : Nat)
  | vertexAttribPointer (index : Nat) (size : Nat) (typ : Nat) (normalized : Bool)
      (stride : Nat) (offset : Nat)
  | enableVertexAttribArray (index : Nat)
  | createShader (kind : Nat) (id : Nat)
  | shaderSource (id : Nat) (count : Nat) (srcLen : Nat)
  | compileShader (id : Nat)
  | getShaderiv (id : Nat) (pname : Nat)
  | getShaderInfoLog (id : Nat) (bufSize : Nat)
  | deleteShader (id : Nat)
  | createProgram (id : Nat)
  | attachShader (prog : Nat) (shader : Nat)
  | linkProgram (id : Nat)
  | getProgramiv (id : Nat) (pname : Nat)
  | getProgramInfoLog (id : Nat) (bufSize : Nat)
  | useProgram (id : Nat)
  | clearColor (r g b a : Rat)
  | clear (mask : Nat)
  | drawArrays (mode : Nat) (first : Nat) (count : Nat)
  | swapBuffers
  | resizeSurface (w : Nat) (h : Nat)
  deriving DecidableEq, Repr

/-! ## The driver oracle

Models every answer the windowing system and the OpenGL driver give to the
program: handles returned by the Gen/Create calls, compile and link status
words, the reported info-log length and the bytes the driver wrote into the
log buffer (as a memory of bytes indexed from the start of the buffer), and
the results of the fallible glutin operations. -/

structure Driver where
  buildWindowed : Except String Unit
  makeCurrent : Except String Unit
  genVertexArrays : Nat
  genBuffers : Nat
  createShader : Nat → Nat
  compileStatus : Nat → Int
  shaderLogLen : Nat → Int
  shaderLogMem : Nat → Nat → UInt8
  createProgram : Nat
  linkStatus : Int
  programLogLen : Int
  programLogMem : Nat → UInt8
  swapResult : Except String Unit

/-! ## Info-log retrieval (the shared failure-branch code)

Embeds lines 100-103 / 144-147 of main.rs: a Vec with capacity 1024, a call
to Get*InfoLog with bufSize 1024, then buf.set_len(log_len.try_into().unwrap()).
A negative reported length makes the try_into conversion panic; a reported
length above 1024 makes set_len expose memory beyond the Vec's capacity
(undefined behaviour); both are modelled as none.  Otherwise the exposed
vector is exactly the first log_len bytes of the buffer memory. -/

def retrieveInfoLog (log_len : Int) (mem : Nat → UInt8) : Option (List UInt8) :=
  if log_len < 0 then none
  else if 1024 < log_len then none
  else some ((List.range log_len.toNat).map mem)

/-! ## Rust String::from_utf8 and the Debug formatting of its Result

The diagnostic in the failure branch is format!("\x7b:?\x7d", String::from_utf8(buf)):
the Debug rendering of Ok(the decoded string) or of Err(FromUtf8Error ...).
utf8Decode is standard UTF-8 validation/decoding (rejecting overlong forms,
surrogates and out-of-range code points, as Rust does); escapeDebug models
the Debug escaping of the string body (quote and backslash escaped — control
characters are left as-is here, which does not affect any property proved
below since only the non-empty wrapping is relevant). -/

def utf8Cont (c : UInt8) : Bool := 0x80 ≤ c && c ≤ 0xBF

def utf8Decode : List UInt8 → Option (List Char)
  | [] => some []
  | b :: rest =>
    if b ≤ 0x7F then
      (utf8Decode rest).map fun cs => Char.ofNat b.toNat :: cs
    else if 0xC2 ≤ b && b ≤ 0xDF then
      match rest with
      | c :: rest2 =>
        if utf8Cont c then
          (utf8Decode rest2).map fun cs =>
            Char.ofNat ((b.toNat - 0xC0) * 0x40 + (c.toNat - 0x80)) :: cs
        else none
      | [] => none
    else if 0xE0 ≤ b && b ≤ 0xEF then
      match rest with
      | c :: d :: rest3 =>
        let lo : Nat := if b = 0xE0 then 0xA0 else 0x80
        let hi : Nat := if b = 0xED then 0x9F else 0xBF
        if (lo ≤ c.toNat && c.toNat ≤ hi) && utf8Cont d then
          (utf8Decode rest3).map fun cs =>
            Char.ofNat ((b.toNat - 0xE0) * 0x1000 + (c.toNat - 0x80) * 0x40
              + (d.toNat - 0x80)) :: cs
        else none
      | _ => none
    else if 0xF0 ≤ b && b ≤ 0xF4 then
      match rest with
      | c :: d :: e :: rest4 =>
        let lo : Nat := if b = 0xF0 then 0x90 else 0x80
        let hi : Nat := if b = 0xF4 then 0x8F else 0xBF
        if ((lo ≤ c.toNat && c.toNat ≤ hi) && utf8Cont d) && utf8Cont e then
          (utf8Decode rest4).map fun cs =>
            Char.ofNat ((b.toNat - 0xF0) * 0x40000 + (c.toNat - 0x80) * 0x1000
              + (d.toNat - 0x80) * 0x40 + (e.toNat - 0x80)) :: cs
        else none
      | _ => none
    else none

def rustFromUtf8 (buf : List UInt8) : Option String :=
  (utf8Decode buf).map fun cs => String.mk cs

def escapeDebugChar (c : Char) : String :=
  if c = '"' then "\\\"" else if c = '\\' then "\\\\" else String.singleton c

def escapeDebug (s : String) : String :=
  String.join (s.toList.map escapeDebugChar)

def utf8DebugMessage (buf : List UInt8) : String :=
  match rustFromUtf8 buf with
  | some s => "Ok(\"" ++ escapeDebug s ++ "\")"
  | none => "Err(FromUtf8Error \x7b .. \x7d)"

/-! ## The wrapper types and their methods (lines 13-160 of main.rs)

Each wrapper owns one GLuint handle.  Every method of the source takes the
wrapper by shared reference and cannot mutate it; the embedding mirrors this
by returning the wrapper alongside the calls the method issues, unchanged. -/

structure VertexArray where
  id : Nat
  deriving DecidableEq, Repr

def VertexArray.new (drv : Driver) : List GLCall × Except String VertexArray :=
  let id := drv.genVertexArrays
  ([.genVertexArrays id],
    if id = 0 then .error "Failed to create vertex array" else .ok ⟨id⟩)

def VertexArray.bind (va : VertexArray) : GLCall × VertexArray :=
  (.bindVertexArray va.id, va)

def VertexArray.unbind (va : VertexArray) : GLCall × VertexArray :=
  (.bindVertexArray 0, va)

structure Buffer where
  id : Nat
  deriving DecidableEq, Repr

def Buffer.new (drv : Driver) : List GLCall × Except String Buffer :=
  let id := drv.genBuffers
  ([.genBuffers id],
    if id = 0 then .error "Failed to create buffer" else .ok ⟨id⟩)

def Buffer.bind (b : Buffer) (target : Nat) : GLCall × Buffer :=
  (.bindBuffer target b.id, b)

def Buffer.unbind (b : Buffer) (target : Nat) : GLCall × Buffer :=
  (.bindBuffer target 0, b)

def Buffer.data (b : Buffer) (target : Nat) (bytes : List UInt8) (usage : Nat) :
    GLCall × Buffer :=
  (.bufferData target bytes.length usage, b)

structure Shader where
  id : Nat
  deriving DecidableEq, Repr

/-- Shader::from_source (lines 83-110): CreateShader, early error on a zero
handle, otherwise ShaderSource (whose length argument is
source.len().try_into().unwrap(), panicking past i32::MAX), CompileShader,
GetShaderiv COMPILE_STATUS; on status 0 the bounded info-log retrieval and an
error wrapping the Debug-formatted UTF-8 decoding of the log. -/
def Shader.from_source (drv : Driver) (kind : Nat) (source : String) :
    List GLCall × Option (Except String Shader) :=
  let id := drv.createShader kind
  if id = 0 then
    ([.createShader kind id], some (.error "Failed to create shader"))
  else if 2147483647 < source.length then
    ([.createShader kind id], none)
  else
    let pre : List GLCall :=
      [.createShader kind id, .shaderSource id 1 source.length,
        .compileShader id, .getShaderiv id COMPILE_STATUS]
    if drv.compileStatus id = 0 then
      let calls := pre ++ [.getShaderInfoLog id 1024]
      match retrieveInfoLog (drv.shaderLogLen id) (drv.shaderLogMem id) with
      | none => (calls, none)
      | some buf => (calls, some (.error (utf8DebugMessage buf)))
    else (pre, some (.ok ⟨id⟩))

def Shader.delete (s : Shader) : GLCall × Shader :=
  (.deleteShader s.id, s)

structure Program where
  id : Nat
  deriving DecidableEq, Repr

def Program.new (drv : Driver) : List GLCall × Except String Program :=
  let id := drv.createProgram
  ([.createProgram id],
    if id = 0 then .error "Failed to create program" else .ok ⟨id⟩)

def Program.attach (p : Program) (s : Shader) : GLCall × Program :=
  (.attachShader p.id s.id, p)

/-- Program::link (lines 137-153): LinkProgram, GetProgramiv LINK_STATUS, and
on status 0 the same bounded info-log retrieval as the shader path. -/
def Program.link (p : Program) (drv : Driver) :
    List GLCall × Option (Except String Unit) × Program :=
  let pre : List GLCall := [.linkProgram p.id, .getProgramiv p.id LINK_STATUS]
  if drv.linkStatus = 0 then
    let calls := pre ++ [.getProgramInfoLog p.id 1024]
    match retrieveInfoLog drv.programLogLen drv.programLogMem with
    | none => (calls, none, p)
    | some buf => (calls, some (.error (utf8DebugMessage buf)), p)
  else (pre, some (.ok ()), p)

def Program.use_program (p : Program) : GLCall × Program :=
  (.useProgram p.id, p)

/-! ## The constant scene data of main (lines 189-203)

A vertex is three f32 components; each component is embedded as its IEEE-754
bit pattern (-0.5 = 0xBF000000, 0.5 = 0x3F000000, 0.0 = 0x00000000).
bytemuck::cast_slice reinterprets the vertex slice as its little-endian bytes,
concatenated in order. -/

structure Vertex where
  x : UInt32
  y : UInt32
  z : UInt32
  deriving DecidableEq, Repr

def u32Bytes (w : UInt32) : List UInt8 :=
  [w.toUInt8, (w >>> 8).toUInt8, (w >>> 16).toUInt8, (w >>> 24).toUInt8]

def Vertex.bytes (v : Vertex) : List UInt8 :=
  u32Bytes v.x ++ u32Bytes v.y ++ u32Bytes v.z

def castSlice : List Vertex → List UInt8
  | [] => []
  | v :: vs => v.bytes ++ castSlice vs

def VERTICES : List Vertex :=
  [⟨0xBF000000, 0xBF000000, 0⟩, ⟨0x3F000000, 0xBF000000, 0⟩, ⟨0, 0x3F000000, 0⟩]

def VERT_SHADER : String :=
  "#version 330 core\n    layout (location = 0) in vec3 pos;\n    void main() \x7b\n      gl_Position = vec4(pos.x, pos.y, pos.z, 1.0);\n    \x7d\n    "

def FRAG_SHADER : String :=
  "#version 330 core\n    out vec4 final_color;\n\n    void main() \x7b\n        final_color = vec4(1.0, 0.5, 0.2, 1.0);\n    \x7d\n    "

/-! ## The startup sequence of main (lines 163-238)

The sequence of driver calls main issues during setup, in source order, and
its outcome.  Every step whose Result is unwrapped turns an error into an
aborted run carrying the trace so far and the diagnostic; a library panic
(the set_len / try_into hazards of the info-log path) gives a panicked run.
The version query (GetString + println) is embedded as the single getString
call.  On success, the handles of the created objects are recorded. -/

structure SetupState where
  vaId : Nat
  vbId : Nat
  vsId : Nat
  fsId : Nat
  progId : Nat
  deriving DecidableEq, Repr

inductive SetupResult where
  | aborted (trace : List GLCall) (diag : String)
  | panicked (trace : List GLCall)
  | ok (trace : List GLCall) (st : SetupState)
  deriving DecidableEq, Repr

def mainSetup (drv : Driver) : SetupResult :=
  match drv.buildWindowed with
  | .error d => .aborted [] d
  | .ok _ =>
  match drv.makeCurrent with
  | .error d => .aborted [] d
  | .ok _ =>
  let t0 : List GLCall := [.getString]
  match VertexArray.new drv with
  | (c1, .error d) => .aborted (t0 ++ c1) d
  | (c1, .ok va) =>
  let t1 := t0 ++ c1 ++ [(va.bind).1]
  match Buffer.new drv with
  | (c2, .error d) => .aborted (t1 ++ c2) d
  | (c2, .ok vb) =>
  let t2 := t1 ++ c2 ++ [(vb.bind ARRAY_BUFFER).1,
    (vb.data ARRAY_BUFFER (castSlice VERTICES) STATIC_DRAW).1,
    .vertexAttribPointer 0 3 GL_FLOAT false 12 0, .enableVertexAttribArray 0]
  match Shader.from_source drv VERTEX_SHADER VERT_SHADER with
  | (c3, none) => .panicked (t2 ++ c3)
  | (c3, some (.error d)) => .aborted (t2 ++ c3) d
  | (c3, some (.ok vertex_shader)) =>
  let t3 := t2 ++ c3
  match Shader.from_source drv FRAGMENT_SHADER FRAG_SHADER with
  | (c4, none) => .panicked (t3 ++ c4)
  | (c4, some (.error d)) => .aborted (t3 ++ c4) d
  | (c4, some (.ok fragment_shader)) =>
  let t4 := t3 ++ c4
  match Program.new drv with
  | (c5, .error d) => .aborted (t4 ++ c5) d
  | (c5, .ok program) =>
  let t5 := t4 ++ c5 ++ [(program.attach vertex_shader).1,
    (program.attach fragment_shader).1]
  match program.link drv with
  | (c6, none, _) => .panicked (t5 ++ c6)
  | (c6, some (.error d), _) => .aborted (t5 ++ c6) d
  | (c6, some (.ok _), _) =>
  .ok (t5 ++ c6 ++ [(program.use_program).1, (vertex_shader.delete).1,
    (fragment_shader.delete).1])
    ⟨va.id, vb.id, vertex_shader.id, fragment_shader.id, program.id⟩

/-! ## The event loop (lines 240-261)

The closure first sets the control flow to Wait, then dispatches on the
event; a close request overwrites the control flow with Exit.  A redraw
request issues ClearColor, Clear, DrawArrays and then swap_buffers().unwrap();
a failed swap is the unwrap of an Err, aborting the process mid-handler. -/

inductive WinEvent where
  | resized (w : Nat) (h : Nat)
  | closeRequested
  | otherWindow
  deriving DecidableEq, Repr

inductive Event where
  | loopDestroyed
  | windowEvent (e : WinEvent)
  | redrawRequested (windowId : Nat)
  | otherEvent
  deriving DecidableEq, Repr

inductive ControlFlow where
  | wait
  | poll
  | exitLoop
  deriving DecidableEq, Repr

def handleEvent (drv : Driver) (event : Event) :
    ControlFlow × List GLCall × Option String :=
  match event with
  | .loopDestroyed => (.wait, [], none)
  | .windowEvent (.resized w h) => (.wait, [.resizeSurface w h], none)
  | .windowEvent .closeRequested => (.exitLoop, [], none)
  | .windowEvent .otherWindow => (.wait, [], none)
  | .redrawRequested _ =>
    let calls : List GLCall :=
      [.clearColor (2/10) (3/10) (3/10) (1 : Rat), .clear COLOR_BUFFER_BIT,
        .drawArrays TRIANGLES 0 3, .swapBuffers]
    match drv.swapResult with
    | .ok _ => (.wait, calls, none)
    | .error d => (.wait, calls, some d)
  | .otherEvent => (.wait, [], none)

/-- Runs the loop over a queue of delivered events: calls issued, the
diagnostic of a failed unwrap inside a handler (which kills the process, so
later events are dropped), and whether the loop reached the Exit control flow
(after which no further event is dispatched). -/
def runLoop (drv : Driver) : List Event → List GLCall × Option String × Bool
  | [] => ([], none, false)
  | e :: rest =>
    let (cf, calls, fail) := handleEvent drv e
    match fail with
    | some d => (calls, some d, false)
    | none =>
      if cf = .exitLoop then (calls, none, true)
      else
        let (calls2, f2, t) := runLoop drv rest
        (calls ++ calls2, f2, t)

inductive RunResult where
  | aborted (trace : List GLCall) (diag : String)
  | panicked (trace : List GLCall)
  | exited (trace : List GLCall)
  | waiting (trace : List GLCall)
  deriving DecidableEq, Repr

/-- The whole program: setup, then the event loop over the delivered events.
A setup failure aborts before any event is processed. -/
def runMain (drv : Driver) (events : List Event) : RunResult :=
  match mainSetup drv with
  | .aborted t d => .aborted t d
  | .panicked t => .panicked t
  | .ok t _ =>
    match runLoop drv events with
    | (calls, some d, _) => .aborted (t ++ calls) d
    | (calls, none, true) => .exited (t ++ calls)
    | (calls, none, false) => .waiting (t ++ calls)

/-! ## Concrete drivers used by witnesses and counterexamples -/

/-- A driver for which every step succeeds. -/
def drvOk : Driver :=
  ⟨.ok (), .ok (), 1, 1, fun k => if k = VERTEX_SHADER then 1 else 2,
    fun _ => 1, fun _ => 0, fun _ _ => 0, 3, 1, 0, fun _ => 0, .ok ()⟩

/-- A driver whose window creation fails. -/
def drvNoWindow : Driver :=
  ⟨.error "window creation failed", .ok (), 1, 1, fun _ => 1,
    fun _ => 1, fun _ => 0, fun _ _ => 0, 3, 1, 0, fun _ => 0, .ok ()⟩

/-- A driver for which vertex-shader compilation fails with an empty log. -/
def drvBadCompile : Driver :=
  ⟨.ok (), .ok (), 1, 1, fun k => if k = VERTEX_SHADER then 1 else 2,
    fun _ => 0, fun _ => 0, fun _ _ => 0, 3, 1, 0, fun _ => 0, .ok ()⟩

/-- A driver for which everything succeeds except the buffer swap. -/
def drvBadSwap : Driver :=
  ⟨.ok (), .ok (), 1, 1, fun k => if k = VERTEX_SHADER then 1 else 2,
    fun _ => 1, fun _ => 0, fun _ _ => 0, 3, 1, 0, fun _ => 0,
    .error "swap failed"⟩

/-- The setup trace mainSetup produces on drvOk. -/
def drvOkTrace : List GLCall :=
  [.getString, .genVertexArrays 1, .bindVertexArray 1, .genBuffers 1,
    .bindBuffer ARRAY_BUFFER 1, .bufferData ARRAY_BUFFER 36 STATIC_DRAW,
    .vertexAttribPointer 0 3 GL_FLOAT false 12 0, .enableVertexAttribArray 0,
    .createShader VERTEX_SHADER 1, .shaderSource 1 1 VERT_SHADER.length,
    .compileShader 1, .getShaderiv 1 COMPILE_STATUS,
    .createShader FRAGMENT_SHADER 2, .shaderSource 2 1 FRAG_SHADER.length,
    .compileShader 2, .getShaderiv 2 COMPILE_STATUS,
    .createProgram 3, .attachShader 3 1, .attachShader 3 2,
    .linkProgram 3, .getProgramiv 3 LINK_STATUS,
    .useProgram 3, .deleteShader 1, .deleteShader 2]

def isDrawArrays : GLCall → Bool
  | .drawArrays _ _ _ => true
  | _ => false

/-- The calls the loop body issues for a queue of events, in order. -/
def loopCalls (drv : Driver) (evs : List Event) : List GLCall :=
  evs.foldr (fun e acc => (handleEvent drv e).2.1 ++ acc) []

/-! ## Helper lemmas -/

theorem length_u32Bytes (w : UInt32) : (u32Bytes w).length = 4 := rfl

theorem length_vertexBytes (v : Vertex) : v.bytes.length = 12 := rfl

theorem length_castSlice (vs : List Vertex) :
    (castSlice vs).length = vs.length * (3 * 4) := by
  induction vs with
  | nil => rfl
  | cons v vs ih =>
    simp [castSlice, ih, length_vertexBytes]
    ring

theorem utf8DebugMessage_ne_empty (buf : List UInt8) : utf8DebugMessage buf ≠ "" := by
  unfold utf8DebugMessage
  cases h : rustFromUtf8 buf with
  | none =>
    intro hc
    have := congrArg String.length hc
    simp [String.length_append] at this
    exact absurd this (by decide)
  | some s =>
    intro hc
    have := congrArg String.length hc
    simp [String.length_append] at this
    exact absurd this.1.1 (by decide)

theorem handleEvent_controlFlow (drv : Driver) (e : Event) :
    (handleEvent drv e).1 =
      if e = .windowEvent .closeRequested then .exitLoop else .wait := by
  cases e with
  | windowEvent we => cases we <;> rfl
  | redrawRequested wid =>
    simp only [handleEvent]
    cases drv.swapResult <;> rfl
  | loopDestroyed => rfl
  | otherEvent => rfl

theorem runLoop_until_close (drv : Driver) (pre post : List Event)
    (h : ∀ x ∈ pre, x ≠ Event.windowEvent WinEvent.closeRequested ∧
      (handleEvent drv x).2.2 = none) :
    runLoop drv (pre ++ Event.windowEvent WinEvent.closeRequested :: post) =
      (loopCalls drv pre, none, true) := by
  induction pre with
  | nil => rfl
  | cons e pre ih =>
    have he1 : e ≠ Event.windowEvent WinEvent.closeRequested := (h e (by simp)).1
    have he2 : (handleEvent drv e).2.2 = none := (h e (by simp)).2
    have hcf : (handleEvent drv e).1 = ControlFlow.wait := by
      rw [handleEvent_controlFlow, if_neg he1]
    have ih2 := ih (fun x hx => h x (by simp [hx]))
    rcases hE : handleEvent drv e with ⟨cf, calls, fail⟩
    rw [hE] at he2 hcf
    simp only at he2 hcf
    subst he2; subst hcf
    simp [runLoop, hE, ih2, loopCalls]

/-- C1: on every redraw-request event the handler issues, in this order, the
clear color (0.2, 0.3, 0.3, 1.0), the clear of the color buffer, exactly one
draw call of 3 vertices as triangles, and the buffer swap. -/
theorem redraw_clear_draw_swap_order (drv : Driver) (wid : Nat) :
    (handleEvent drv (Event.redrawRequested wid)).2.1 =
      [GLCall.clearColor (2/10) (3/10) (3/10) 1, GLCall.clear COLOR_BUFFER_BIT,
        GLCall.drawArrays TRIANGLES 0 3, GLCall.swapBuffers] ∧
    ((handleEvent drv (Event.redrawRequested wid)).2.1.countP isDrawArrays) = 1 := by
  cases h : drv.swapResult <;> refine ⟨?_, ?_⟩ <;> simp only [handleEvent, h] <;> rfl

/-- C2: for VertexArray::new, Buffer::new and Program::new the result is an
error exactly when the driver returned the zero handle, and a returned
wrapper never holds a zero handle. -/
theorem creation_error_iff_zero_handle (drv : Driver) :
    (((∃ d, (VertexArray.new drv).2 = Except.error d) ↔ drv.genVertexArrays = 0) ∧
      ∀ va, (VertexArray.new drv).2 = Except.ok va → va.id ≠ 0) ∧
    (((∃ d, (Buffer.new drv).2 = Except.error d) ↔ drv.genBuffers = 0) ∧
      ∀ b, (Buffer.new drv).2 = Except.ok b → b.id ≠ 0) ∧
    (((∃ d, (Program.new drv).2 = Except.error d) ↔ drv.createProgram = 0) ∧
      ∀ p, (Program.new drv).2 = Except.ok p → p.id ≠ 0) := by
  refine ⟨⟨?_, ?_⟩, ⟨?_, ?_⟩, ⟨?_, ?_⟩⟩ <;>
    simp only [VertexArray.new, Buffer.new, Program.new] <;>
    split_ifs with h <;> simp [h]

/-- C3: with a shader object created (nonzero handle), a source text within
the i32 range and a well-formed reported log length, from_source succeeds
with a wrapper around the nonzero handle exactly when the driver reports
compile success, and on reported compile failure returns an error carrying a
non-empty diagnostic. -/
theorem shader_from_source_dichotomy (drv : Driver) (kind : Nat) (source : String)
    (hc : drv.createShader kind ≠ 0)
    (hlen : source.length ≤ 2147483647)
    (h0 : 0 ≤ drv.shaderLogLen (drv.createShader kind))
    (h1 : drv.shaderLogLen (drv.createShader kind) ≤ 1024) :
    (drv.compileStatus (drv.createShader kind) ≠ 0 →
      ∃ sh, (Shader.from_source drv kind source).2 = some (Except.ok sh) ∧ sh.id ≠ 0) ∧
    (drv.compileStatus (drv.createShader kind) = 0 →
      ∃ d, (Shader.from_source drv kind source).2 = some (Except.error d) ∧ d ≠ "") := by
  have hnl : ¬ 2147483647 < source.length := by omega
  constructor
  · intro hs
    refine ⟨⟨drv.createShader kind⟩, ?_, hc⟩
    simp [Shader.from_source, hc, hnl, hs]
  · intro hs
    have hr : retrieveInfoLog (drv.shaderLogLen (drv.createShader kind))
        (drv.shaderLogMem (drv.createShader kind)) =
        some ((List.range (drv.shaderLogLen (drv.createShader kind)).toNat).map
          (drv.shaderLogMem (drv.createShader kind))) := by
      unfold retrieveInfoLog
      rw [if_neg (by omega), if_neg (by omega)]
    refine ⟨utf8DebugMessage ((List.range
        (drv.shaderLogLen (drv.createShader kind)).toNat).map
        (drv.shaderLogMem (drv.createShader kind))), ?_,
      utf8DebugMessage_ne_empty _⟩
    simp [Shader.from_source, hc, hnl, hs, hr]

/-- Witness for C3 at a concrete driver reporting compile failure with an
empty log. -/
theorem shader_from_source_dichotomy_witness :
    ∃ d, (Shader.from_source drvBadCompile VERTEX_SHADER "bad").2 =
      some (Except.error d) ∧ d ≠ "" :=
  (shader_from_source_dichotomy drvBadCompile VERTEX_SHADER "bad" (by decide)
    (by decide) (by decide) (by decide)).2 rfl

/-- C4 counterexample: on a fully successful driver, the setup trace issues
the use-program call at index 21 and the delete-shader calls at indices 22
and 23, so the shader deletions do not occur strictly before the program
activation. -/
theorem shader_deletes_before_activation_cex :
    mainSetup drvOk = SetupResult.ok drvOkTrace ⟨1, 1, 1, 2, 3⟩ ∧
    GLCall.useProgram 3 ∈ drvOkTrace ∧ GLCall.deleteShader 1 ∈ drvOkTrace ∧
    GLCall.deleteShader 2 ∈ drvOkTrace ∧
    drvOkTrace.findIdx (fun c => c == GLCall.useProgram 3) = 21 ∧
    drvOkTrace.findIdx (fun c => c == GLCall.deleteShader 1) = 22 ∧
    drvOkTrace.findIdx (fun c => c == GLCall.deleteShader 2) = 23 ∧
    ¬ (drvOkTrace.findIdx (fun c => c == GLCall.deleteShader 1) <
        drvOkTrace.findIdx (fun c => c == GLCall.useProgram 3)) := by
  decide

/-- C4 amended: in the startup sequence the program is activated first and
the two shader objects are deleted immediately afterwards: every successful
setup trace ends with use-program followed by the two delete-shader calls. -/
theorem use_program_precedes_shader_deletes (drv : Driver) (t : List GLCall)
    (st : SetupState) (h : mainSetup drv = SetupResult.ok t st) :
    ∃ pre, t = pre ++ [GLCall.useProgram st.progId, GLCall.deleteShader st.vsId,
      GLCall.deleteShader st.fsId] := by
  simp only [mainSetup] at h
  repeat' split at h
  all_goals try exact (SetupResult.noConfusion h)
  rw [SetupResult.ok.injEq] at h
  obtain ⟨ht, hst⟩ := h
  subst ht
  subst hst
  exact ⟨_, rfl⟩

/-- Witness for the amended C4 at the fully successful driver. -/
theorem use_program_precedes_shader_deletes_witness :
    ∃ pre, drvOkTrace = pre ++ [GLCall.useProgram 3, GLCall.deleteShader 1,
      GLCall.deleteShader 2] :=
  use_program_precedes_shader_deletes drvOk drvOkTrace ⟨1, 1, 1, 2, 3⟩ (by decide)

/-- C5: the diagnostic-log retrieval uses the fixed 1024-byte buffer and sets
the exposed vector length to exactly the driver-reported length; it is free
of panics and out-of-capacity length-setting precisely when
0 ≤ log_len ≤ 1024, a negative length being the try_into panic and a length
above 1024 exceeding the buffer capacity. -/
theorem info_log_retrieval_precondition (log_len : Int) (mem : Nat → UInt8) :
    ((∃ buf, retrieveInfoLog log_len mem = some buf ∧ buf.length = log_len.toNat) ↔
      0 ≤ log_len ∧ log_len ≤ 1024) ∧
    (log_len < 0 → retrieveInfoLog log_len mem = none) ∧
    (1024 < log_len → retrieveInfoLog log_len mem = none) := by
  unfold retrieveInfoLog
  refine ⟨⟨?_, ?_⟩, ?_, ?_⟩
  · rintro ⟨buf, hb, -⟩
    split_ifs at hb with h1 h2
    all_goals try cases hb
    all_goals omega
  · rintro ⟨ha, hb⟩
    rw [if_neg (by omega), if_neg (by omega)]
    exact ⟨_, rfl, by simp⟩
  · intro h
    rw [if_pos h]
  · intro h
    rw [if_neg (by omega), if_pos h]

/-- C6: every fallible setup step (window creation, context activation,
vertex-array creation, buffer creation, shader compilation for both stages,
program creation, linking) and the in-loop buffer swap is unwrapped: a
failure aborts the run with that step's diagnostic before any further driver
call is issued, with no retry and no fallback. -/
theorem every_failure_is_fatal (drv : Driver) (events : List Event) :
    (∀ d, drv.buildWindowed = Except.error d →
      runMain drv events = RunResult.aborted [] d) ∧
    (∀ d, drv.buildWindowed = Except.ok () → drv.makeCurrent = Except.error d →
      runMain drv events = RunResult.aborted [] d) ∧
    (drv.buildWindowed = Except.ok () → drv.makeCurrent = Except.ok () →
      drv.genVertexArrays = 0 →
      runMain drv events = RunResult.aborted [.getString, .genVertexArrays 0]
        "Failed to create vertex array") ∧
    (drv.buildWindowed = Except.ok () → drv.makeCurrent = Except.ok () →
      drv.genVertexArrays ≠ 0 → drv.genBuffers = 0 →
      runMain drv events = RunResult.aborted
        [.getString, .genVertexArrays drv.genVertexArrays,
          .bindVertexArray drv.genVertexArrays, .genBuffers 0]
        "Failed to create buffer") ∧
    (drv.buildWindowed = Except.ok () → drv.makeCurrent = Except.ok () →
      drv.genVertexArrays ≠ 0 → drv.genBuffers ≠ 0 →
      drv.createShader VERTEX_SHADER ≠ 0 →
      drv.compileStatus (drv.createShader VERTEX_SHADER) = 0 →
      0 ≤ drv.shaderLogLen (drv.createShader VERTEX_SHADER) →
      drv.shaderLogLen (drv.createShader VERTEX_SHADER) ≤ 1024 →
      runMain drv events = RunResult.aborted
        [.getString, .genVertexArrays drv.genVertexArrays,
          .bindVertexArray drv.genVertexArrays, .genBuffers drv.genBuffers,
          .bindBuffer ARRAY_BUFFER drv.genBuffers,
          .bufferData ARRAY_BUFFER (castSlice VERTICES).length STATIC_DRAW,
          .vertexAttribPointer 0 3 GL_FLOAT false 12 0, .enableVertexAttribArray 0,
          .createShader VERTEX_SHADER (drv.createShader VERTEX_SHADER),
          .shaderSource (drv.createShader VERTEX_SHADER) 1 VERT_SHADER.length,
          .compileShader (drv.createShader VERTEX_SHADER),
          .getShaderiv (drv.createShader VERTEX_SHADER) COMPILE_STATUS,
          .getShaderInfoLog (drv.createShader VERTEX_SHADER) 1024]
        (utf8DebugMessage ((List.range
            (drv.shaderLogLen (drv.createShader VERTEX_SHADER)).toNat).map
          (drv.shaderLogMem (drv.createShader VERTEX_SHADER))))) ∧
    (drv.buildWindowed = Except.ok () → drv.makeCurrent = Except.ok () →
      drv.genVertexArrays ≠ 0 → drv.genBuffers ≠ 0 →
      drv.createShader VERTEX_SHADER ≠ 0 →
      drv.compileStatus (drv.createShader VERTEX_SHADER) ≠ 0 →
      drv.createShader FRAGMENT_SHADER ≠ 0 →
      drv.compileStatus (drv.createShader FRAGMENT_SHADER) = 0 →
      0 ≤ drv.shaderLogLen (drv.createShader FRAGMENT_SHADER) →
      drv.shaderLogLen (drv.createShader FRAGMENT_SHADER) ≤ 1024 →
      runMain drv events = RunResult.aborted
        [.getString, .genVertexArrays drv.genVertexArrays,
          .bindVertexArray drv.genVertexArrays, .genBuffers drv.genBuffers,
          .bindBuffer ARRAY_BUFFER drv.genBuffers,
          .bufferData ARRAY_BUFFER (castSlice VERTICES).length STATIC_DRAW,
          .vertexAttribPointer 0 3 GL_FLOAT false 12 0, .enableVertexAttribArray 0,
          .createShader VERTEX_SHADER (drv.createShader VERTEX_SHADER),
          .shaderSource (drv.createShader VERTEX_SHADER) 1 VERT_SHADER.length,
          .compileShader (drv.createShader VERTEX_SHADER),
          .getShaderiv (drv.createShader VERTEX_SHADER) COMPILE_STATUS,
          .createShader FRAGMENT_SHADER (drv.createShader FRAGMENT_SHADER),
          .shaderSource (drv.createShader FRAGMENT_SHADER) 1 FRAG_SHADER.length,
          .compileShader (drv.createShader FRAGMENT_SHADER),
          .getShaderiv (drv.createShader FRAGMENT_SHADER) COMPILE_STATUS,
          .getShaderInfoLog (drv.createShader FRAGMENT_SHADER) 1024]
        (utf8DebugMessage ((List.range
            (drv.shaderLogLen (drv.createShader FRAGMENT_SHADER)).toNat).map
          (drv.shaderLogMem (drv.createShader FRAGMENT_SHADER))))) ∧
    (drv.buildWindowed = Except.ok () → drv.makeCurrent = Except.ok () →
      drv.genVertexArrays ≠ 0 → drv.genBuffers ≠ 0 →
      drv.createShader VERTEX_SHADER ≠ 0 →
      drv.compileStatus (drv.createShader VERTEX_SHADER) ≠ 0 →
      drv.createShader FRAGMENT_SHADER ≠ 0 →
      drv.compileStatus (drv.createShader FRAGMENT_SHADER) ≠ 0 →
      drv.createProgram = 0 →
      runMain drv events = RunResult.aborted
        [.getString, .genVertexArrays drv.genVertexArrays,
          .bindVertexArray drv.genVertexArrays, .genBuffers drv.genBuffers,
          .bindBuffer ARRAY_BUFFER drv.genBuffers,
          .bufferData ARRAY_BUFFER (castSlice VERTICES).length STATIC_DRAW,
          .vertexAttribPointer 0 3 GL_FLOAT false 12 0, .enableVertexAttribArray 0,
          .createShader VERTEX_SHADER (drv.createShader VERTEX_SHADER),
          .shaderSource (drv.createShader VERTEX_SHADER) 1 VERT_SHADER.length,
          .compileShader (drv.createShader VERTEX_SHADER),
          .getShaderiv (drv.createShader VERTEX_SHADER) COMPILE_STATUS,
          .createShader FRAGMENT_SHADER (drv.createShader FRAGMENT_SHADER),
          .shaderSource (drv.createShader FRAGMENT_SHADER) 1 FRAG_SHADER.length,
          .compileShader (drv.createShader FRAGMENT_SHADER),
          .getShaderiv (drv.createShader FRAGMENT_SHADER) COMPILE_STATUS,
          .createProgram 0]
        "Failed to create program") ∧
    (drv.buildWindowed = Except.ok () → drv.makeCurrent = Except.ok () →
      drv.genVertexArrays ≠ 0 → drv.genBuffers ≠ 0 →
      drv.createShader VERTEX_SHADER ≠ 0 →
      drv.compileStatus (drv.createShader VERTEX_SHADER) ≠ 0 →
      drv.createShader FRAGMENT_SHADER ≠ 0 →
      drv.compileStatus (drv.createShader FRAGMENT_SHADER) ≠ 0 →
      drv.createProgram ≠ 0 → drv.linkStatus = 0 →
      0 ≤ drv.programLogLen → drv.programLogLen ≤ 1024 →
      runMain drv events = RunResult.aborted
        [.getString, .genVertexArrays drv.genVertexArrays,
          .bindVertexArray drv.genVertexArrays, .genBuffers drv.genBuffers,
          .bindBuffer ARRAY_BUFFER drv.genBuffers,
          .bufferData ARRAY_BUFFER (castSlice VERTICES).length STATIC_DRAW,
          .vertexAttribPointer 0 3 GL_FLOAT false 12 0, .enableVertexAttribArray 0,
          .createShader VERTEX_SHADER (drv.createShader VERTEX_SHADER),
          .shaderSource (drv.createShader VERTEX_SHADER) 1 VERT_SHADER.length,
          .compileShader (drv.createShader VERTEX_SHADER),
          .getShaderiv (drv.createShader VERTEX_SHADER) COMPILE_STATUS,
          .createShader FRAGMENT_SHADER (drv.createShader FRAGMENT_SHADER),
          .shaderSource (drv.createShader FRAGMENT_SHADER) 1 FRAG_SHADER.length,
          .compileShader (drv.createShader FRAGMENT_SHADER),
          .getShaderiv (drv.createShader FRAGMENT_SHADER) COMPILE_STATUS,
          .createProgram drv.createProgram,
          .attachShader drv.createProgram (drv.createShader VERTEX_SHADER),
          .attachShader drv.createProgram (drv.createShader FRAGMENT_SHADER),
          .linkProgram drv.createProgram,
          .getProgramiv drv.createProgram LINK_STATUS,
          .getProgramInfoLog drv.createProgram 1024]
        (utf8DebugMessage ((List.range drv.programLogLen.toNat).map
          drv.programLogMem))) ∧
    (∀ t st wid rest d, mainSetup drv = SetupResult.ok t st →
      drv.swapResult = Except.error d →
      runMain drv (Event.redrawRequested wid :: rest) = RunResult.aborted
        (t ++ [.clearColor (2/10) (3/10) (3/10) 1, .clear COLOR_BUFFER_BIT,
          .drawArrays TRIANGLES 0 3, .swapBuffers]) d) := by
  have hv : ¬ 2147483647 < VERT_SHADER.length := by decide
  have hf : ¬ 2147483647 < FRAG_SHADER.length := by decide
  refine ⟨?_, ?_, ?_, ?_, ?_, ?_, ?_, ?_, ?_⟩
  · intro d h
    simp [runMain, mainSetup, h]
  · intro d h1 h2
    simp [runMain, mainSetup, h1, h2]
  · intro h1 h2 h3
    simp [runMain, mainSetup, VertexArray.new, h1, h2, h3]
  · intro h1 h2 h3 h4
    simp [runMain, mainSetup, VertexArray.new, Buffer.new, VertexArray.bind,
      h1, h2, h3, h4]
  · intro h1 h2 h3 h4 h5 h6 h7 h8
    have hr : retrieveInfoLog (drv.shaderLogLen (drv.createShader VERTEX_SHADER))
        (drv.shaderLogMem (drv.createShader VERTEX_SHADER)) =
        some ((List.range
          (drv.shaderLogLen (drv.createShader VERTEX_SHADER)).toNat).map
          (drv.shaderLogMem (drv.createShader VERTEX_SHADER))) := by
      unfold retrieveInfoLog
      rw [if_neg (by omega), if_neg (by omega)]
    simp [runMain, mainSetup, VertexArray.new, Buffer.new, VertexArray.bind,
      Buffer.bind, Buffer.data, Shader.from_source, h1, h2, h3, h4, h5, h6, hv, hr]
  · intro h1 h2 h3 h4 h5 h6 h7 h8 h9 h10
    have hr : retrieveInfoLog (drv.shaderLogLen (drv.createShader FRAGMENT_SHADER))
        (drv.shaderLogMem (drv.createShader FRAGMENT_SHADER)) =
        some ((List.range
          (drv.shaderLogLen (drv.createShader FRAGMENT_SHADER)).toNat).map
          (drv.shaderLogMem (drv.createShader FRAGMENT_SHADER))) := by
      unfold retrieveInfoLog
      rw [if_neg (by omega), if_neg (by omega)]
    simp [runMain, mainSetup, VertexArray.new, Buffer.new, VertexArray.bind,
      Buffer.bind, Buffer.data, Shader.from_source, h1, h2, h3, h4, h5, h6, h7,
      h8, hv, hf, hr]
  · intro h1 h2 h3 h4 h5 h6 h7 h8 h9
    simp [runMain, mainSetup, VertexArray.new, Buffer.new, VertexArray.bind,
      Buffer.bind, Buffer.data, Shader.from_source, Program.new, h1, h2, h3, h4,
      h5, h6, h7, h8, h9, hv, hf]
  · intro h1 h2 h3 h4 h5 h6 h7 h8 h9 h10 h11 h12
    have hr : retrieveInfoLog drv.programLogLen drv.programLogMem =
        some ((List.range drv.programLogLen.toNat).map drv.programLogMem) := by
      unfold retrieveInfoLog
      rw [if_neg (by omega), if_neg (by omega)]
    simp [runMain, mainSetup, VertexArray.new, Buffer.new, VertexArray.bind,
      Buffer.bind, Buffer.data, Shader.from_source, Program.new, Program.attach,
      Program.link, h1, h2, h3, h4, h5, h6, h7, h8, h9, h10, hv, hf, hr]
  · intro t st wid rest d hok hswap
    simp [runMain, runLoop, handleEvent, hok, hswap]

/-- Witness for C6: a failed window creation aborts with its diagnostic
before any driver call is issued. -/
theorem every_failure_is_fatal_witness :
    runMain drvNoWindow [] = RunResult.aborted [] "window creation failed" :=
  (every_failure_is_fatal drvNoWindow []).1 "window creation failed" rfl

/-- C7: the buffer upload passes data.len() bytes to the driver, which for a
slice of N vertices of 3 four-byte floats is exactly N times 3 times 4 bytes,
and for the fixed triangle exactly 36 bytes. -/
theorem buffer_upload_byte_length (b : Buffer) (target usage : Nat) (vs : List Vertex) :
    Buffer.data b target (castSlice vs) usage =
      (GLCall.bufferData target (vs.length * (3 * 4)) usage, b) ∧
    Buffer.data b target (castSlice VERTICES) usage =
      (GLCall.bufferData target 36 usage, b) := by
  constructor
  · simp [Buffer.data, length_castSlice]
  · rfl

/-- C8: a window-resize event only propagates the new size to the rendering
surface: its handler keeps waiting, issues exactly the resize call, and
issues no clear-color, clear, draw or swap call. -/
theorem resize_only_resizes_surface (drv : Driver) (w h : Nat) :
    handleEvent drv (Event.windowEvent (WinEvent.resized w h)) =
      (ControlFlow.wait, [GLCall.resizeSurface w h], none) ∧
    ∀ c ∈ (handleEvent drv (Event.windowEvent (WinEvent.resized w h))).2.1,
      (∀ r g b a, c ≠ GLCall.clearColor r g b a) ∧ (∀ m, c ≠ GLCall.clear m) ∧
      isDrawArrays c = false ∧ c ≠ GLCall.swapBuffers := by
  refine ⟨rfl, ?_⟩
  intro c hc
  simp only [handleEvent, List.mem_singleton] at hc
  subst hc
  refine ⟨?_, ?_, rfl, ?_⟩ <;> intros <;> simp

/-- C9: a close request is the one event that sets the control flow to Exit,
every other event leaves it at Wait, and the loop run over a queue of events
stops at the first close request, processing no event after it. -/
theorem loop_terminates_only_on_close (drv : Driver) (e : Event) (pre post : List Event) :
    ((handleEvent drv e).1 = ControlFlow.exitLoop ↔
      e = Event.windowEvent WinEvent.closeRequested) ∧
    (e ≠ Event.windowEvent WinEvent.closeRequested →
      (handleEvent drv e).1 = ControlFlow.wait) ∧
    ((∀ x ∈ pre, x ≠ Event.windowEvent WinEvent.closeRequested ∧
        (handleEvent drv x).2.2 = none) →
      runLoop drv (pre ++ Event.windowEvent WinEvent.closeRequested :: post) =
        (loopCalls drv pre, none, true)) := by
  refine ⟨?_, ?_, runLoop_until_close drv pre post⟩
  · rw [handleEvent_controlFlow]
    split_ifs with h <;> simp [h]
  · intro h
    rw [handleEvent_controlFlow, if_neg h]

/-- Witness for C9 at a concrete queue: a resize, then a close, then a redraw
that is never processed. -/
theorem loop_terminates_only_on_close_witness :
    runLoop drvOk ([Event.windowEvent (WinEvent.resized 5 6)] ++
        Event.windowEvent WinEvent.closeRequested :: [Event.redrawRequested 0]) =
      (loopCalls drvOk [Event.windowEvent (WinEvent.resized 5 6)], none, true) :=
  (loop_terminates_only_on_close drvOk Event.otherEvent
      [Event.windowEvent (WinEvent.resized 5 6)] [Event.redrawRequested 0]).2.2
    (by decide)

/-- C10: every wrapper method of the source takes the wrapper by shared
reference: bind, unbind, data, attach, link, use_program and delete return
the wrapper with its handle exactly as created, and each constructor stores
precisely the handle the driver returned. -/
theorem wrapper_handles_immutable (va : VertexArray) (b : Buffer) (s : Shader)
    (p : Program) (drv : Driver) (target usage kind : Nat) (bytes : List UInt8)
    (source : String) :
    (va.bind).2 = va ∧ (va.unbind).2 = va ∧
    (b.bind target).2 = b ∧ (b.unbind target).2 = b ∧
    (Buffer.data b target bytes usage).2 = b ∧
    (s.delete).2 = s ∧ (p.attach s).2 = p ∧
    (Program.link p drv).2.2 = p ∧ (p.use_program).2 = p ∧
    (∀ va2, (VertexArray.new drv).2 = Except.ok va2 → va2.id = drv.genVertexArrays) ∧
    (∀ b2, (Buffer.new drv).2 = Except.ok b2 → b2.id = drv.genBuffers) ∧
    (∀ s2, (Shader.from_source drv kind source).2 = some (Except.ok s2) →
      s2.id = drv.createShader kind) ∧
    (∀ p2, (Program.new drv).2 = Except.ok p2 → p2.id = drv.createProgram) := by
  refine ⟨rfl, rfl, rfl, rfl, rfl, rfl, rfl, ?_, rfl, ?_, ?_, ?_, ?_⟩
  · unfold Program.link
    split_ifs with h
    · cases retrieveInfoLog drv.programLogLen drv.programLogMem <;> rfl
    · rfl
  · simp only [VertexArray.new]
    split_ifs with h <;> simp
  · simp only [Buffer.new]
    split_ifs with h <;> simp
  · simp only [Shader.from_source]
    split_ifs with h1 h2 h3
    · simp
    · simp
    · cases retrieveInfoLog (drv.shaderLogLen (drv.createShader kind))
        (drv.shaderLogMem (drv.createShader kind)) <;> simp
    · simp
  · simp only [Program.new]
    split_ifs with h <;> simp

end HelloGL
